import Mathlib

/-!
Verification of the schema-migration core of the meridian library.

The definitions below are a shallow embedding of the TypeScript source
(`lib/sql/migration.ts`, here `src/unnamed/part_006`, and its decorator
metadata model in `src/src/sql/decorators.ts`):

* JavaScript strings become `String`; the few JS string methods the source
  uses (`substring`, `split`, `trim`, `replace` with the concrete anchored
  regexes, `JSON.stringify` of a string) are modelled character-exactly for
  the character ranges the source manipulates (ASCII SQL text).
* `Reflect` metadata of an entity class becomes an explicit `Entity` record:
  the per-class `columns` records along the prototype chain (most derived
  class first), the `foreign_keys` record and the `vector_columns` record.
* Thrown exceptions become `Except String`; a thrown error aborts the whole
  call, discarding any SQL accumulated so far, exactly as in the source.
-/

namespace Meridian

set_option maxRecDepth 40000

/-! ### Generic helpers for JS string / object-record semantics -/

/-- First-match lookup in an association list; models `record[key]` where the
record is an insertion-ordered JS object. -/
def lookupKey {α : Type} : List (String × α) → String → Option α
  | [], _ => none
  | (k', v) :: rest, k => if k' = k then some v else lookupKey rest k

/-- Concatenation of a list of strings in order; models repeated `sql += piece`. -/
def concatList : List String → String
  | [] => ""
  | s :: rest => s ++ concatList rest

/-- Does `pre` occur at the start of `s`? Models `String.prototype.startsWith`. -/
def strStartsWith (s pre : String) : Bool :=
  List.isPrefixOf pre.data s.data

/-- Does `suf` occur at the end of `s`? Models `String.prototype.endsWith`. -/
def strEndsWith (s suf : String) : Bool :=
  List.isSuffixOf suf.data s.data

/-- ASCII-wise lowercasing; models `String.prototype.toLowerCase` on the ASCII
identifiers and SQL type names the source compares. -/
def strToLower (s : String) : String :=
  String.mk (s.data.map Char.toLower)

/-- The whitespace class of `String.prototype.trim` (ASCII part plus NBSP,
line/paragraph separator and BOM). -/
def jsWhitespace (c : Char) : Bool :=
  c = ' ' || c = '\t' || c = '\n' || c = '\r' || c = Char.ofNat 11 ||
  c = Char.ofNat 12 || c = Char.ofNat 0xa0 || c = Char.ofNat 0x2028 ||
  c = Char.ofNat 0x2029 || c = Char.ofNat 0xfeff

/-- Models `String.prototype.trim`. -/
def strTrim (s : String) : String :=
  String.mk (((s.data.dropWhile jsWhitespace).reverse.dropWhile jsWhitespace).reverse)

/-- Models `String.prototype.substring(a, b)`: both indices are clamped to the
string length and swapped when out of order. -/
def jsSubstring (s : String) (a b : Nat) : String :=
  let n := s.data.length
  let a' := min a n
  let b' := min b n
  String.mk ((s.data.drop (min a' b')).take (max a' b' - min a' b'))

/-- Models `String.prototype.split(sep)` for a one-character separator (in
particular `"".split(sep) = [""]`). -/
def splitChar (sep : Char) : List Char → List (List Char)
  | [] => [[]]
  | c :: rest =>
    let r := splitChar sep rest
    if c = sep then [] :: r
    else
      match r with
      | h :: t => (c :: h) :: t
      | [] => [[c]]

/-- String wrapper around `splitChar`. -/
def strSplitChar (sep : Char) (s : String) : List String :=
  (splitChar sep s.data).map String.mk

/-- Models `value.replace(/^q|q$/g, "")` for a one-character pattern `q`: one
leading occurrence is removed, then one trailing occurrence of the remainder. -/
def stripOuterChar (q : Char) (s : String) : String :=
  let cs :=
    match s.data with
    | c :: rest => if c = q then rest else s.data
    | [] => []
  let cs2 :=
    match cs.reverse with
    | c :: rest => if c = q then rest.reverse else cs
    | [] => []
  String.mk cs2

/-- One hex digit, lowercase, as emitted by `JSON.stringify` control escapes. -/
def hexDigit (n : Nat) : Char :=
  if n < 10 then Char.ofNat (48 + n) else Char.ofNat (87 + n)

/-- The escaping `JSON.stringify` applies to one character of a string. -/
def jsonEscapeChar (c : Char) : String :=
  if c = '"' then "\\\""
  else if c = '\\' then "\\\\"
  else if c = '\n' then "\\n"
  else if c = '\r' then "\\r"
  else if c = '\t' then "\\t"
  else if c = Char.ofNat 8 then "\\b"
  else if c = Char.ofNat 12 then "\\f"
  else if c.toNat < 32 then
    "\\u00" ++ String.mk [hexDigit (c.toNat / 16), hexDigit (c.toNat % 16)]
  else String.mk [c]

/-- Models `JSON.stringify` applied to a string value. -/
def jsonStringifyString (s : String) : String :=
  "\"" ++ concatList (s.data.map jsonEscapeChar) ++ "\""

/-- Number of (possibly overlapping) occurrences of the pattern in the list. -/
def countOccsList (pat : List Char) : List Char → Nat
  | [] => 0
  | c :: rest =>
    (if List.isPrefixOf pat (c :: rest) then 1 else 0) + countOccsList pat rest

/-- Number of occurrences of the (nonempty) pattern `pat` in `s`. -/
def countOccs (pat s : String) : Nat :=
  countOccsList pat.data s.data

/-! ### Identifier / literal codec (part_006 lines 59-192) -/

/-- The fixed list of PostgreSQL reserved keywords of `quoteIdentifier`
(part_006 lines 64-163). -/
def reservedKeywords : List String :=
  ["all", "analyse", "analyze", "and", "any", "array", "as", "asc",
   "asymmetric", "authorization", "binary", "both", "case", "cast", "check",
   "collate", "column", "constraint", "create", "cross", "current_catalog",
   "current_date", "current_role", "current_schema", "current_time",
   "current_timestamp", "current_user", "default", "deferrable", "desc",
   "distinct", "do", "else", "end", "except", "false", "fetch", "for",
   "foreign", "freeze", "from", "full", "grant", "group", "having", "ilike",
   "in", "initially", "inner", "intersect", "into", "is", "isnull", "join",
   "lateral", "leading", "left", "like", "limit", "localtime",
   "localtimestamp", "natural", "not", "notnull", "null", "offset", "on",
   "only", "or", "order", "outer", "overlaps", "placing", "primary",
   "references", "returning", "right", "select", "session_user", "similar",
   "some", "symmetric", "table", "tablesample", "then", "to", "trailing",
   "true", "union", "unique", "user", "using", "variadic", "verbose", "when",
   "where", "window", "with"]

/-- Quote an identifier if it is a reserved keyword, contains a character
outside `[a-zA-Z0-9_]`, or starts with a digit (part_006 lines 62-175). -/
def quoteIdentifier (identifier : String) : String :=
  if reservedKeywords.contains (strToLower identifier)
      || identifier.data.any (fun c => !(c.isAlphanum || c = '_'))
      || (match identifier.data.head? with
          | some c => c.isDigit
          | none => false) then
    "\"" ++ identifier ++ "\""
  else
    identifier

/-- Escape a string for SQL: double every single quote and wrap in single
quotes (part_006 lines 180-182). -/
def escapeSqlString (value : String) : String :=
  "'" ++ concatList (value.data.map (fun c => if c = '\'' then "''" else String.mk [c])) ++ "'"

/-- The character class `[a-zA-Z0-9_]` of the `isSqlFunction` regex. -/
def isIdentChar (c : Char) : Bool :=
  c.isAlphanum || c = '_'

/-- The character class of the regex metacharacter `.` without the `s` flag:
any character except the four JS line terminators. -/
def isDotChar (c : Char) : Bool :=
  !(c = '\n' || c = '\r' || c = Char.ofNat 0x2028 || c = Char.ofNat 0x2029)

/-- Whole-string test of the regex `/^[a-zA-Z0-9_]+\(.*\)$/` of `isSqlFunction`
(part_006 line 191). Because `(` is not in the `+`-class, the `(` must stand
right after the maximal leading identifier run; `$` pins `)` to the last
character; `.*` takes everything between, provided no line terminator. -/
def isSqlFunctionStr (s : String) : Bool :=
  match s.data.dropWhile isIdentChar with
  | c :: tail =>
    if c = '(' then
      if (s.data.takeWhile isIdentChar).isEmpty then false
      else
        match tail.reverse with
        | d :: mid => if d = ')' then mid.all isDotChar else false
        | [] => false
    else false
  | [] => false

/-- A JavaScript value as passed to `isSqlFunction(value: any)`. -/
inductive JsValue : Type
  | str (s : String)
  | num (n : Int)
  | boolean (b : Bool)
  | null

/-- Check if a value is a SQL function call (part_006 lines 187-192): `false`
for every non-string, the regex test for a string. -/
def isSqlFunction : JsValue → Bool
  | .str s => isSqlFunctionStr s
  | _ => false

/-! ### Data model: entity metadata and introspected schema (part_006 lines 7-57)

Entity metadata is produced by the decorators in `decorators.ts`: every class
of the prototype chain holds its own `columns` record (insertion-ordered), and
the most derived class holds the `foreign_keys` and `vector_columns` records.
An `Entity` packs the chain's column records most-derived-first together with
the table name and the two other records. -/

/-- `ColumnMetadata` (part_006 lines 12-20). The `default` thunk
`() => string` is represented by the string it returns. -/
structure ColumnMetadata : Type where
  name : String
  primary : Bool := false
  nullable : Bool := false
  unique : Bool := false
  type : String
  default : Option String := none
  isVector : Bool := false
deriving DecidableEq

/-- `ForeignKeyMetadata` (part_006 lines 22-25). -/
structure ForeignKeyMetadata : Type where
  tableName : String
  columnName : String
deriving DecidableEq

/-- An entity class with its reflection metadata. `columnLevels` lists the
per-class `columns` records along the prototype chain, most derived first. -/
structure Entity : Type where
  tableName : String
  columnLevels : List (List (String × ColumnMetadata))
  foreignKeys : List (String × ForeignKeyMetadata) := []
  vectorColumns : List (String × Nat) := []

/-- `ColumnInfo` of the introspected schema (part_006 lines 32-38). -/
structure ColumnInfo : Type where
  column_name : String
  data_type : String
  is_nullable : String
  column_default : Option String := none
  is_unique : Bool := false
deriving DecidableEq

/-- A foreign-key row of the introspected schema (part_006 lines 43-47). -/
structure FkInfo : Type where
  column_name : String
  foreign_table_name : String
  foreign_column_name : String
deriving DecidableEq

/-- An index row of the introspected schema (part_006 lines 48-52). -/
structure IndexInfo : Type where
  index_name : String
  column_names : List String
  is_unique : Bool
deriving DecidableEq

/-- `TableInfo` (part_006 lines 40-53). -/
structure TableInfo : Type where
  columns : List ColumnInfo
  primaryKey : List String
  foreignKeys : List FkInfo
  indexes : List IndexInfo
deriving DecidableEq

/-- `DatabaseSchema` (part_006 lines 55-57): table name to table snapshot. -/
def DatabaseSchema : Type := List (String × TableInfo)

/-! ### Hierarchy merge (part_006 lines 550-570) -/

/-- One step of the merge loop: `if (!result[key]) result[key] = value`, the
record keeping insertion order. -/
def insertIfAbsent (acc : List (String × ColumnMetadata))
    (kv : String × ColumnMetadata) : List (String × ColumnMetadata) :=
  if (lookupKey acc kv.1).isSome then acc else acc ++ [kv]

/-- Add one class level's columns to the accumulated record, earlier entries
winning. -/
def addLevel (acc : List (String × ColumnMetadata))
    (level : List (String × ColumnMetadata)) : List (String × ColumnMetadata) :=
  level.foldl insertIfAbsent acc

/-- Walk the prototype chain (most derived class first) and collect all
columns, the first class that declares a property winning
(part_006 lines 550-570). -/
def getAllColumnsFromHierarchy
    (levels : List (List (String × ColumnMetadata))) : List (String × ColumnMetadata) :=
  levels.foldl addLevel []

/-! ### Table DDL generator (part_006 lines 383-545) -/

/-- The `DEFAULT ...` suffix of one column definition in `generateTableSQL`
(part_006 lines 426-491). The jsonb `ARRAY[` branch special-cases the
property names `promptTypes`, `preferredTags` and `excludedTags`; the generic
`ARRAY[` branch comma-splits the bracket content and rebuilds a JSON string
array; a jsonb default ending in `::jsonb` is re-quoted; one starting with a
brace or bracket is embedded verbatim; any other jsonb default is
JSON-stringified. The source's `try/catch` fallbacks are unreachable (none of
the string operations in the `try` blocks can throw), so they have no
counterpart here. -/
def renderDefault (propertyKey colType defaultValue : String) : String :=
  if colType = "jsonb" && strStartsWith defaultValue "ARRAY[" then
    if propertyKey = "promptTypes" then
      " DEFAULT '[\"reflection\", \"questions\", \"encouragement\"]'::jsonb"
    else if propertyKey = "preferredTags" || propertyKey = "excludedTags" then
      " DEFAULT '[]'::jsonb"
    else
      let arrayContent := jsSubstring defaultValue 6 (defaultValue.data.length - 1)
      let jsonArray := (strSplitChar ',' arrayContent).map (fun item =>
        stripOuterChar '"' (jsonStringifyString (strTrim (stripOuterChar '\'' item))))
      " DEFAULT '[\"" ++ String.intercalate "\", \"" jsonArray ++ "\"]'::jsonb"
  else if colType = "jsonb" then
    if strEndsWith defaultValue "::jsonb" then
      " DEFAULT '" ++ String.mk (defaultValue.data.take (defaultValue.data.length - 7)) ++ "'::jsonb"
    else if strStartsWith defaultValue "\x7b" || strStartsWith defaultValue "[" then
      " DEFAULT '" ++ defaultValue ++ "'::jsonb"
    else
      " DEFAULT '" ++ jsonStringifyString defaultValue ++ "'::jsonb"
  else if isSqlFunctionStr defaultValue then
    " DEFAULT " ++ defaultValue
  else
    " DEFAULT " ++ escapeSqlString defaultValue

/-- The column definitions of the `CREATE TABLE` body, in declaration order,
vector columns skipped (part_006 lines 403-494). -/
def createColumnDefs : List (String × ColumnMetadata) → List String
  | [] => []
  | (k, m) :: rest =>
    if m.isVector then createColumnDefs rest
    else
      ("  " ++ quoteIdentifier m.name ++ " " ++ m.type
        ++ (if !m.nullable then " NOT NULL" else "")
        ++ (if m.unique then " UNIQUE" else "")
        ++ (match m.default with
            | some d => renderDefault k m.type d
            | none => "")) :: createColumnDefs rest

/-- The primary-key column names collected by the same loop
(part_006 lines 408-414). -/
def createPrimaryKeyCols : List (String × ColumnMetadata) → List String
  | [] => []
  | (_, m) :: rest =>
    if m.isVector then createPrimaryKeyCols rest
    else if m.primary then m.name :: createPrimaryKeyCols rest
    else createPrimaryKeyCols rest

/-- The `CONSTRAINT ... FOREIGN KEY` lines of the `CREATE TABLE` body; a
foreign key on a property with no column descriptor throws
(part_006 lines 505-524). -/
def createFkDefs (tableName : String) (cols : List (String × ColumnMetadata)) :
    List (String × ForeignKeyMetadata) → Except String (List String)
  | [] => .ok []
  | (propertyKey, fk) :: rest =>
    match lookupKey cols propertyKey with
    | none => .error ("Property " ++ propertyKey ++ " is not decorated with @Column")
    | some columnMeta =>
      match createFkDefs tableName cols rest with
      | .error e => .error e
      | .ok defs =>
        .ok (("  CONSTRAINT " ++ quoteIdentifier ("fk_" ++ tableName ++ "_" ++ columnMeta.name)
          ++ " FOREIGN KEY (" ++ quoteIdentifier columnMeta.name
          ++ ") REFERENCES " ++ quoteIdentifier fk.tableName
          ++ "(" ++ quoteIdentifier fk.columnName ++ ")") :: defs)

/-- The trailing `ALTER TABLE ... ADD COLUMN ... vector(n)` statements; a
vector descriptor on a property with no column descriptor throws
(part_006 lines 531-542). -/
def createVectorSQL (tableName : String) (cols : List (String × ColumnMetadata)) :
    List (String × Nat) → Except String String
  | [] => .ok ""
  | (propertyKey, dimensions) :: rest =>
    match lookupKey cols propertyKey with
    | none => .error ("Property " ++ propertyKey ++ " is not decorated with @Column")
    | some columnMeta =>
      match createVectorSQL tableName cols rest with
      | .error e => .error e
      | .ok restSql =>
        .ok ("ALTER TABLE " ++ quoteIdentifier tableName ++ " ADD COLUMN "
          ++ quoteIdentifier columnMeta.name ++ " vector(" ++ toString dimensions ++ ");\n"
          ++ restSql)

/-- Generate SQL for creating a table (part_006 lines 383-545), optionally
with its foreign-key constraint lines. -/
def generateTableSQL (e : Entity) (includeForeignKeys : Bool) : Except String String :=
  let cols := getAllColumnsFromHierarchy e.columnLevels
  let columnDefinitions := createColumnDefs cols
  let primaryKeyColumns := createPrimaryKeyCols cols
  let withPk := columnDefinitions ++
    (if primaryKeyColumns.isEmpty then []
     else ["  PRIMARY KEY (" ++ String.intercalate ", " (primaryKeyColumns.map quoteIdentifier) ++ ")"])
  match (if includeForeignKeys then createFkDefs e.tableName cols e.foreignKeys else .ok []) with
  | .error err => .error err
  | .ok fkDefs =>
    match createVectorSQL e.tableName cols e.vectorColumns with
    | .error err => .error err
    | .ok vectorSql =>
      .ok ("CREATE TABLE " ++ quoteIdentifier e.tableName ++ " (\n"
        ++ String.intercalate ",\n" (withPk ++ fkDefs) ++ "\n);\n" ++ vectorSql)

/-! ### Alter DDL generator (part_006 lines 575-714) -/

/-- Find a column of the snapshot by name; models
`tableInfo.columns.find(col => col.column_name === columnName)`. -/
def findColumnInfo (info : TableInfo) (name : String) : Option ColumnInfo :=
  info.columns.find? (fun col => col.column_name = name)

/-- The modification clauses for a column that already exists: a nullability
toggle and/or a case-insensitive type change (part_006 lines 626-648). -/
def alterModClauses (m : ColumnMetadata) (existingColumn : ColumnInfo) : List String :=
  (if !m.nullable && existingColumn.is_nullable = "YES" then
    ["ALTER COLUMN " ++ quoteIdentifier m.name ++ " SET NOT NULL"]
  else if m.nullable && existingColumn.is_nullable = "NO" then
    ["ALTER COLUMN " ++ quoteIdentifier m.name ++ " DROP NOT NULL"]
  else [])
  ++
  (if strToLower m.type = strToLower existingColumn.data_type then []
   else ["ALTER COLUMN " ++ quoteIdentifier m.name ++ " TYPE " ++ m.type
     ++ " USING " ++ quoteIdentifier m.name ++ "::" ++ m.type])

/-- The SQL contributed by one resolved column in `generateAlterTableSQL`:
nothing for a vector column, one `ADD COLUMN` statement for a missing column
(note: no jsonb default handling on this path, part_006 lines 611-619), and
one batched `ALTER TABLE` statement when an existing column needs
modifications (part_006 lines 588-657). -/
def alterColumnPiece (tableName : String) (info : TableInfo) (m : ColumnMetadata) : String :=
  if m.isVector then ""
  else
    match findColumnInfo info m.name with
    | none =>
      "ALTER TABLE " ++ quoteIdentifier tableName ++ " ADD COLUMN "
        ++ quoteIdentifier m.name ++ " " ++ m.type
        ++ (if !m.nullable then " NOT NULL" else "")
        ++ (if m.unique then " UNIQUE" else "")
        ++ (match m.default with
            | some d =>
              if isSqlFunctionStr d then " DEFAULT " ++ d
              else " DEFAULT " ++ escapeSqlString d
            | none => "")
        ++ ";\n"
    | some existingColumn =>
      let modifications := alterModClauses m existingColumn
      if modifications.isEmpty then ""
      else "ALTER TABLE " ++ quoteIdentifier tableName ++ " "
        ++ String.intercalate ", " modifications ++ ";\n"

/-- The first loop of `generateAlterTableSQL` over the resolved columns
(part_006 lines 588-657). -/
def alterColumnsSQL (tableName : String) (info : TableInfo) :
    List (String × ColumnMetadata) → String
  | [] => ""
  | (_, m) :: rest => alterColumnPiece tableName info m ++ alterColumnsSQL tableName info rest

/-- Does the snapshot already hold this (column, referenced table, referenced
column) triple? Models the `tableInfo.foreignKeys.find(...)` tests. -/
def fkTripleExists (fks : List FkInfo) (columnName : String) (fk : ForeignKeyMetadata) : Bool :=
  fks.any (fun f => f.column_name = columnName && f.foreign_table_name = fk.tableName
    && f.foreign_column_name = fk.columnName)

/-- The second loop of `generateAlterTableSQL`: one plain `ADD CONSTRAINT`
statement per foreign key missing from the snapshot; a foreign key on a
property with no column descriptor throws (part_006 lines 660-689). -/
def alterFkSQL (tableName : String) (cols : List (String × ColumnMetadata))
    (info : TableInfo) : List (String × ForeignKeyMetadata) → Except String String
  | [] => .ok ""
  | (propertyKey, fk) :: rest =>
    match lookupKey cols propertyKey with
    | none => .error ("Property " ++ propertyKey ++ " is not decorated with @Column")
    | some columnMeta =>
      match alterFkSQL tableName cols info rest with
      | .error e => .error e
      | .ok restSql =>
        .ok ((if fkTripleExists info.foreignKeys columnMeta.name fk then ""
          else "ALTER TABLE " ++ quoteIdentifier tableName ++ " ADD CONSTRAINT "
            ++ quoteIdentifier ("fk_" ++ tableName ++ "_" ++ columnMeta.name)
            ++ " FOREIGN KEY (" ++ quoteIdentifier columnMeta.name
            ++ ") REFERENCES " ++ quoteIdentifier fk.tableName
            ++ "(" ++ quoteIdentifier fk.columnName ++ ");\n") ++ restSql)

/-- The third loop of `generateAlterTableSQL`: one `ADD COLUMN ... vector(n)`
statement per vector column missing from the snapshot; a vector descriptor on
a property with no column descriptor throws (part_006 lines 692-711). -/
def alterVectorSQL (tableName : String) (cols : List (String × ColumnMetadata))
    (info : TableInfo) : List (String × Nat) → Except String String
  | [] => .ok ""
  | (propertyKey, dimensions) :: rest =>
    match lookupKey cols propertyKey with
    | none => .error ("Property " ++ propertyKey ++ " is not decorated with @Column")
    | some columnMeta =>
      match alterVectorSQL tableName cols info rest with
      | .error e => .error e
      | .ok restSql =>
        .ok ((if (findColumnInfo info columnMeta.name).isSome then ""
          else "ALTER TABLE " ++ quoteIdentifier tableName ++ " ADD COLUMN "
            ++ quoteIdentifier columnMeta.name ++ " vector(" ++ toString dimensions ++ ");\n")
          ++ restSql)

/-- Generate SQL for altering a table to match the entity definition
(part_006 lines 575-714). -/
def generateAlterTableSQL (e : Entity) (tableInfo : TableInfo) : Except String String :=
  let cols := getAllColumnsFromHierarchy e.columnLevels
  let colSql := alterColumnsSQL e.tableName tableInfo cols
  match alterFkSQL e.tableName cols tableInfo e.foreignKeys with
  | .error err => .error err
  | .ok fkSql =>
    match alterVectorSQL e.tableName cols tableInfo e.vectorColumns with
    | .error err => .error err
    | .ok vecSql => .ok (colSql ++ fkSql ++ vecSql)

/-! ### Foreign-key pass generator (part_006 lines 719-767) -/

/-- The loop of `generateForeignKeySQL`: one deferred `ADD CONSTRAINT`
statement per foreign key whose triple is absent from the current schema's
snapshot of this table; a foreign key on a property with no column descriptor
throws (part_006 lines 730-764). -/
def fkDeferredSQL (tableName : String) (cols : List (String × ColumnMetadata))
    (currentSchema : DatabaseSchema) :
    List (String × ForeignKeyMetadata) → Except String String
  | [] => .ok ""
  | (propertyKey, fk) :: rest =>
    match lookupKey cols propertyKey with
    | none => .error ("Property " ++ propertyKey ++ " is not decorated with @Column")
    | some columnMeta =>
      match fkDeferredSQL tableName cols currentSchema rest with
      | .error e => .error e
      | .ok restSql =>
        .ok ((if (match lookupKey currentSchema tableName with
            | some tableInfo => fkTripleExists tableInfo.foreignKeys columnMeta.name fk
            | none => false) then ""
          else "ALTER TABLE " ++ quoteIdentifier tableName ++ " ADD CONSTRAINT "
            ++ quoteIdentifier ("fk_" ++ tableName ++ "_" ++ columnMeta.name)
            ++ " FOREIGN KEY (" ++ quoteIdentifier columnMeta.name
            ++ ") REFERENCES " ++ quoteIdentifier fk.tableName
            ++ "(" ++ quoteIdentifier fk.columnName
            ++ ") ON DELETE CASCADE DEFERRABLE INITIALLY DEFERRED;\n") ++ restSql)

/-- Generate the deferred foreign-key constraints of one entity
(part_006 lines 719-767). -/
def generateForeignKeySQL (e : Entity) (currentSchema : DatabaseSchema) : Except String String :=
  fkDeferredSQL e.tableName (getAllColumnsFromHierarchy e.columnLevels) currentSchema e.foreignKeys

/-! ### Migration orchestrator (part_006 lines 772-819) -/

/-- The structure pass: per entity, a `CREATE TABLE` block (without foreign
keys) when the table is absent from the current schema, otherwise the
`ALTER TABLE` block when it is nonempty (part_006 lines 781-802). -/
def migrationStructureSQL (currentSchema : DatabaseSchema) :
    List Entity → Except String String
  | [] => .ok ""
  | e :: rest =>
    let piece : Except String String :=
      match lookupKey currentSchema e.tableName with
      | none =>
        match generateTableSQL e false with
        | .error err => .error err
        | .ok t => .ok ("-- Creating table " ++ e.tableName ++ "\n" ++ t ++ "\n")
      | some tableInfo =>
        match generateAlterTableSQL e tableInfo with
        | .error err => .error err
        | .ok alterSql =>
          .ok (if alterSql = "" then ""
            else "-- Altering table " ++ e.tableName ++ "\n" ++ alterSql ++ "\n")
    match piece with
    | .error err => .error err
    | .ok p =>
      match migrationStructureSQL currentSchema rest with
      | .error err => .error err
      | .ok restSql => .ok (p ++ restSql)

/-- The foreign-key pass: per entity with at least one foreign key, the
deferred `ADD CONSTRAINT` block (part_006 lines 805-816). -/
def migrationFkSQL (currentSchema : DatabaseSchema) : List Entity → Except String String
  | [] => .ok ""
  | e :: rest =>
    let piece : Except String String :=
      if e.foreignKeys.length > 0 then
        match generateForeignKeySQL e currentSchema with
        | .error err => .error err
        | .ok f => .ok ("-- Adding foreign keys to " ++ e.tableName ++ "\n" ++ f ++ "\n")
      else .ok ""
    match piece with
    | .error err => .error err
    | .ok p =>
      match migrationFkSQL currentSchema rest with
      | .error err => .error err
      | .ok restSql => .ok (p ++ restSql)

/-- Generate the whole migration script: the vector-extension bootstrap, then
the structure pass, then the foreign-key pass (part_006 lines 772-819). -/
def generateMigrationSQL (entityClasses : List Entity) (currentSchema : DatabaseSchema) :
    Except String String :=
  match migrationStructureSQL currentSchema entityClasses with
  | .error err => .error err
  | .ok structureSql =>
    match migrationFkSQL currentSchema entityClasses with
    | .error err => .error err
    | .ok fkSql =>
      .ok ("CREATE EXTENSION IF NOT EXISTS vector;\n\n"
        ++ "-- First pass: Create all tables without foreign keys\n" ++ structureSql
        ++ "\n-- Second pass: Add foreign key constraints\n" ++ fkSql)

/-! ### The regex pattern of `isSqlFunction`, as claimed and as implemented -/

/-- The claimed reading of the `isSqlFunction` test: one or more identifier
characters, then `(`, then ANY characters, then `)` over the whole string. -/
def claimedFnPattern (s : String) : Prop :=
  ∃ p m : List Char,
    s.data = p ++ '(' :: (m ++ [')']) ∧ p ≠ [] ∧ ∀ c ∈ p, isIdentChar c = true

/-- The actual JS semantics of `/^[a-zA-Z0-9_]+\(.*\)$/`: as above, but the
middle part may not contain a line terminator (`.` without the `s` flag). -/
def jsFnPattern (s : String) : Prop :=
  ∃ p m : List Char,
    s.data = p ++ '(' :: (m ++ [')']) ∧ p ≠ [] ∧ (∀ c ∈ p, isIdentChar c = true)
      ∧ ∀ c ∈ m, isDotChar c = true

/-- Splitting a list at the first element refuting `f`, when the prefix is
known to satisfy `f` pointwise. -/
theorem takeWhile_dropWhile_split {α : Type} {f : α → Bool} :
    ∀ (p : List α) (x : α) (r : List α), (∀ c ∈ p, f c = true) → f x = false →
      (p ++ x :: r).takeWhile f = p ∧ (p ++ x :: r).dropWhile f = x :: r := by
  intro p
  induction p with
  | nil =>
    intro x r _ hx
    simp [List.takeWhile, List.dropWhile, hx]
  | cons a t ih =>
    intro x r hp hx
    have ha : f a = true := hp a (List.mem_cons_self a t)
    have ht : ∀ c ∈ t, f c = true := fun c hc => hp c (List.mem_cons_of_mem a hc)
    have := ih x r ht hx
    simp [List.takeWhile, List.dropWhile, ha, this.1, this.2]

/-- The executable matcher agrees with the JS regex pattern. -/
theorem isSqlFunctionStr_iff (s : String) : isSqlFunctionStr s = true ↔ jsFnPattern s := by
  constructor
  · intro h
    unfold isSqlFunctionStr at h
    split at h
    case h_2 => simp at h
    case h_1 c tail hsplit =>
      split at h
      case isFalse => simp at h
      case isTrue hc =>
        subst hc
        split at h
        case isTrue => simp at h
        case isFalse hrun =>
          split at h
          case h_2 => simp at h
          case h_1 d mid hrev =>
            split at h
            case isFalse => simp at h
            case isTrue hd =>
              subst hd
              refine ⟨s.data.takeWhile isIdentChar, mid.reverse, ?_, ?_, ?_, ?_⟩
              · have hsd := List.takeWhile_append_dropWhile isIdentChar s.data
                rw [hsplit] at hsd
                have htail : tail = mid.reverse ++ [')'] := by
                  have h2 : tail.reverse.reverse = (')' :: mid).reverse := by rw [hrev]
                  simpa using h2
                rw [htail] at hsd
                exact hsd.symm
              · intro hemp
                rw [hemp] at hrun
                simp at hrun
              · intro x hx
                exact List.mem_takeWhile_imp hx
              · intro x hx
                exact List.all_eq_true.mp h x (by simpa using hx)
  · rintro ⟨p, m, hdata, hp, hpc, hmc⟩
    have hsplit := takeWhile_dropWhile_split p '(' (m ++ [')']) hpc (by decide)
    unfold isSqlFunctionStr
    rw [hdata, hsplit.1, hsplit.2]
    have hne : p.isEmpty = false := by
      cases p with
      | nil => exact absurd rfl hp
      | cons a t => rfl
    simp only [hne, List.reverse_append, List.reverse_cons, List.reverse_nil,
      List.nil_append, List.singleton_append, if_pos rfl, Bool.false_eq_true,
      if_false, if_true]
    exact List.all_eq_true.mpr (fun x hx => hmc x (by simpa using hx))

/-- C9 counterexample: the string `"a(\n)"` consists of identifier characters,
`(`, some characters, `)` over the whole string — yet `isSqlFunction`
classifies it as not-a-function-call, because the regex dot does not match a
line terminator. -/
theorem c9_counterexample :
    claimedFnPattern "a(\n)" ∧ isSqlFunction (JsValue.str "a(\n)") = false := by
  constructor
  · exact ⟨['a'], ['\n'], by decide, by decide, by decide⟩
  · decide

/-- C9 (amended): `classifyDefault`/`isSqlFunction` returns function-call for a
value iff the value is a string of the form identifier-characters, `(`, any
characters none of which is a line terminator, `)` over the whole string, and
returns not-function-call for every non-string input. -/
theorem c9_isSqlFunction_amended :
    (∀ s : String, isSqlFunction (JsValue.str s) = true ↔ jsFnPattern s)
    ∧ ∀ v : JsValue, (∀ s, v ≠ JsValue.str s) → isSqlFunction v = false := by
  constructor
  · intro s
    exact isSqlFunctionStr_iff s
  · intro v hv
    cases v with
    | str s => exact absurd rfl (hv s)
    | num n => rfl
    | boolean b => rfl
    | null => rfl

/-- C9 witness: the amended theorem applied at `"NOW()"`, `"gen_random_uuid()"`
(function calls), at `null` and at `123` (not function calls). -/
theorem c9_isSqlFunction_amended_witness :
    isSqlFunction (JsValue.str "NOW()") = true
    ∧ isSqlFunction (JsValue.str "gen_random_uuid()") = true
    ∧ isSqlFunction JsValue.null = false
    ∧ isSqlFunction (JsValue.num 123) = false := by
  refine ⟨?_, ?_, ?_, ?_⟩
  · exact (c9_isSqlFunction_amended.1 "NOW()").mpr
      ⟨['N', 'O', 'W'], [], by decide, by decide, by decide, by decide⟩
  · exact (c9_isSqlFunction_amended.1 "gen_random_uuid()").mpr
      ⟨"gen_random_uuid".data, [], by decide, by decide, by decide, by decide⟩
  · exact c9_isSqlFunction_amended.2 JsValue.null (fun s h => nomatch h)
  · exact c9_isSqlFunction_amended.2 (JsValue.num 123) (fun s h => nomatch h)

/-- C10: `quoteIdentifier` applied to the empty string returns the empty
string unquoted: it is not reserved, has no character outside the identifier
class, and does not start with a digit. -/
theorem c10_quoteIdentifier_empty : quoteIdentifier "" = "" := by decide

/-- The Boolean quoting condition of `quoteIdentifier`, restated with
membership and existential quantifiers. -/
theorem quoteIdentifier_cond (s : String) :
    (reservedKeywords.contains (strToLower s)
        || s.data.any (fun c => !(c.isAlphanum || c = '_'))
        || (match s.data.head? with
            | some c => c.isDigit
            | none => false)) = true
    ↔ (strToLower s ∈ reservedKeywords
        ∨ (∃ c ∈ s.data, ¬(c.isAlphanum = true ∨ c = '_'))
        ∨ (∃ c, s.data.head? = some c ∧ c.isDigit = true)) := by
  have h1 : reservedKeywords.contains (strToLower s) = true ↔ strToLower s ∈ reservedKeywords := by
    show List.elem _ _ = true ↔ _
    exact List.elem_iff
  have h2 : s.data.any (fun c => !(c.isAlphanum || c = '_')) = true
      ↔ ∃ c ∈ s.data, ¬(c.isAlphanum = true ∨ c = '_') := by
    rw [List.any_eq_true]
    constructor
    · rintro ⟨c, hc, hp⟩
      refine ⟨c, hc, ?_⟩
      intro hcon
      rcases hcon with hcon | hcon
      · simp [hcon] at hp
      · simp [hcon] at hp
    · rintro ⟨c, hc, hp⟩
      refine ⟨c, hc, ?_⟩
      have ha : c.isAlphanum = false := by
        cases hval : c.isAlphanum with
        | false => rfl
        | true => exact absurd (Or.inl hval) hp
      have hu : ¬(c = '_') := fun hval => hp (Or.inr hval)
      simp [ha, hu]
  have h3 : (match s.data.head? with
      | some c => c.isDigit
      | none => false) = true ↔ ∃ c, s.data.head? = some c ∧ c.isDigit = true := by
    cases hh : s.data.head? <;> simp
  rw [Bool.or_eq_true, Bool.or_eq_true, h1, h2, h3, or_assoc]

/-- C8: `quoteIdentifier` returns the input unchanged unless it matches (case
insensitively) one of the fixed reserved keywords, contains a character
outside `[A-Za-z0-9_]`, or starts with a digit, in which case it returns the
input wrapped in double quotes. As a Lean function of its one argument it is
by construction deterministic, pure and total. -/
theorem c8_quoteIdentifier_spec (s : String) :
    ((strToLower s ∈ reservedKeywords
        ∨ (∃ c ∈ s.data, ¬(c.isAlphanum = true ∨ c = '_'))
        ∨ (∃ c, s.data.head? = some c ∧ c.isDigit = true)) →
      quoteIdentifier s = "\"" ++ s ++ "\"")
    ∧ (¬(strToLower s ∈ reservedKeywords
        ∨ (∃ c ∈ s.data, ¬(c.isAlphanum = true ∨ c = '_'))
        ∨ (∃ c, s.data.head? = some c ∧ c.isDigit = true)) →
      quoteIdentifier s = s) := by
  have key := quoteIdentifier_cond s
  constructor
  · intro h
    unfold quoteIdentifier
    rw [if_pos (key.mpr h)]
  · intro h
    unfold quoteIdentifier
    rw [if_neg (fun hb => h (key.mp hb))]

/-- C8 witness: the theorem applied at the reserved keyword `"table"`, at
`"my-table"` (special character), and at `"user_id"` (left unchanged). -/
theorem c8_quoteIdentifier_spec_witness :
    quoteIdentifier "table" = "\"table\""
    ∧ quoteIdentifier "my-table" = "\"my-table\""
    ∧ quoteIdentifier "user_id" = "user_id" := by
  refine ⟨?_, ?_, ?_⟩
  · exact (c8_quoteIdentifier_spec "table").1 (Or.inl (by decide))
  · exact (c8_quoteIdentifier_spec "my-table").1
      (Or.inr (Or.inl ⟨'-', by decide, by decide⟩))
  · refine (c8_quoteIdentifier_spec "user_id").2 ?_
    intro hcon
    rcases hcon with hcon | hcon | hcon
    · exact absurd hcon (by decide)
    · exact absurd hcon (by decide)
    · obtain ⟨c, hc, hd⟩ := hcon
      have h0 : "user_id".data.head? = some 'u' := by decide
      rw [h0] at hc
      rw [← Option.some.inj hc] at hd
      exact absurd hd (by decide)

/-! ### The hierarchy merge resolves lookups first-class-first (claim C4) -/

/-- Lookup distributes over append, left side first. -/
theorem lookupKey_append {α : Type} (l1 l2 : List (String × α)) (k : String) :
    lookupKey (l1 ++ l2) k = (lookupKey l1 k).orElse (fun _ => lookupKey l2 k) := by
  induction l1 with
  | nil => simp [lookupKey]
  | cons kv t ih =>
    obtain ⟨k1, v1⟩ := kv
    by_cases hk : k1 = k
    · simp [lookupKey, hk, Option.orElse]
    · simp [lookupKey, hk, ih]

/-- Lookup after inserting one key-value pair that only lands when absent. -/
theorem lookupKey_insertIfAbsent (acc : List (String × ColumnMetadata))
    (kv : String × ColumnMetadata) (k : String) :
    lookupKey (insertIfAbsent acc kv) k =
      (lookupKey acc k).orElse (fun _ => if kv.1 = k then some kv.2 else none) := by
  unfold insertIfAbsent
  by_cases hs : (lookupKey acc kv.1).isSome
  · rw [if_pos hs]
    by_cases hk : kv.1 = k
    · obtain ⟨v, hv⟩ := Option.isSome_iff_exists.mp hs
      rw [← hk, hv]
      simp [Option.orElse]
    · rw [if_neg hk]
      cases lookupKey acc k <;> simp [Option.orElse]
  · rw [if_neg hs]
    rw [lookupKey_append]
    have : lookupKey [kv] k = if kv.1 = k then some kv.2 else none := by
      obtain ⟨k1, v1⟩ := kv
      simp [lookupKey]
    rw [this]

/-- Lookup after merging one whole level: the accumulated record wins. -/
theorem lookupKey_addLevel (acc level : List (String × ColumnMetadata)) (k : String) :
    lookupKey (addLevel acc level) k =
      (lookupKey acc k).orElse (fun _ => lookupKey level k) := by
  induction level generalizing acc with
  | nil =>
    cases h : lookupKey acc k <;> simp [addLevel, lookupKey, h, Option.orElse]
  | cons kv t ih =>
    have hstep : addLevel acc (kv :: t) = addLevel (insertIfAbsent acc kv) t := rfl
    rw [hstep, ih, lookupKey_insertIfAbsent]
    obtain ⟨k1, v1⟩ := kv
    by_cases hk : k1 = k
    · cases h : lookupKey acc k <;> simp [lookupKey, hk, h, Option.orElse]
    · cases h : lookupKey acc k <;> simp [lookupKey, hk, h, Option.orElse]

/-- Lookup in the full merge: earlier levels win, level by level. -/
theorem lookupKey_foldl_addLevel (levels : List (List (String × ColumnMetadata)))
    (acc : List (String × ColumnMetadata)) (k : String) :
    lookupKey (levels.foldl addLevel acc) k =
      (lookupKey acc k).orElse (fun _ => lookupKey (getAllColumnsFromHierarchy levels) k) := by
  induction levels generalizing acc with
  | nil =>
    cases h : lookupKey acc k <;>
      simp [getAllColumnsFromHierarchy, lookupKey, h, Option.orElse]
  | cons l ls ih =>
    show lookupKey (ls.foldl addLevel (addLevel acc l)) k = _
    rw [ih, lookupKey_addLevel]
    have hr : lookupKey (getAllColumnsFromHierarchy (l :: ls)) k =
        (lookupKey l k).orElse (fun _ => lookupKey (getAllColumnsFromHierarchy ls) k) := by
      show lookupKey (ls.foldl addLevel (addLevel [] l)) k = _
      rw [ih, lookupKey_addLevel]
      simp [lookupKey]
    rw [hr]
    cases h1 : lookupKey acc k <;> cases h2 : lookupKey l k <;> simp [Option.orElse]

/-- C4: in the resolved column set of a derived entity the child class's
descriptor wins every property-name collision, and a property the child does
not declare resolves exactly as in the merge of the ancestor levels — so
every non-colliding ancestor property appears with its ancestor descriptor. -/
theorem c4_hierarchy_merge (child : List (String × ColumnMetadata))
    (ancestors : List (List (String × ColumnMetadata))) (k : String) :
    (lookupKey child k ≠ none →
      lookupKey (getAllColumnsFromHierarchy (child :: ancestors)) k = lookupKey child k)
    ∧ (lookupKey child k = none →
      lookupKey (getAllColumnsFromHierarchy (child :: ancestors)) k =
        lookupKey (getAllColumnsFromHierarchy ancestors) k) := by
  have hmain : lookupKey (getAllColumnsFromHierarchy (child :: ancestors)) k =
      (lookupKey child k).orElse
        (fun _ => lookupKey (getAllColumnsFromHierarchy ancestors) k) := by
    show lookupKey (ancestors.foldl addLevel (addLevel [] child)) k = _
    rw [lookupKey_foldl_addLevel, lookupKey_addLevel]
    simp [lookupKey]
  constructor
  · intro h
    rw [hmain]
    cases hc : lookupKey child k with
    | none => exact absurd hc h
    | some v => simp [Option.orElse]
  · intro h
    rw [hmain, h]
    simp [Option.orElse]

/-- C4 witness: a two-level hierarchy where the child overrides `id` and the
ancestor contributes `created_at` untouched. -/
theorem c4_hierarchy_merge_witness :
    lookupKey (getAllColumnsFromHierarchy
        [[("id", ({ name := "id", primary := true, type := "text" } : ColumnMetadata))],
         [("id", { name := "id", type := "uuid" }),
          ("createdAt", { name := "created_at", type := "timestamp with time zone" })]]) "id"
      = some { name := "id", primary := true, type := "text" }
    ∧ lookupKey (getAllColumnsFromHierarchy
        [[("id", ({ name := "id", primary := true, type := "text" } : ColumnMetadata))],
         [("id", { name := "id", type := "uuid" }),
          ("createdAt", { name := "created_at", type := "timestamp with time zone" })]]) "createdAt"
      = some { name := "created_at", type := "timestamp with time zone" } := by
  constructor
  · rw [(c4_hierarchy_merge _ _ _).1 (by decide)]
    decide
  · rw [(c4_hierarchy_merge _ _ _).2 (by decide)]
    decide

/-! ### Claim C1: the "trims to exactly the bootstrap line" sentinel -/

/-- C1 (code bug): the generated script always begins with
`CREATE EXTENSION IF NOT EXISTS vector;`, but even when nothing at all is
generated (here: no entities, so every entity trivially matches the current
schema) the script keeps the two fixed pass-header comment lines, so its trim
is never exactly the bootstrap line — the no-change sentinel comparison in
`run-migration.ts` line 97 can never fire. -/
theorem c1_migration_bootstrap_sentinel_bug :
    generateMigrationSQL [] [] =
      Except.ok ("CREATE EXTENSION IF NOT EXISTS vector;\n\n-- First pass: Create all tables without foreign keys\n\n-- Second pass: Add foreign key constraints\n")
    ∧ strStartsWith "CREATE EXTENSION IF NOT EXISTS vector;\n\n-- First pass: Create all tables without foreign keys\n\n-- Second pass: Add foreign key constraints\n"
        "CREATE EXTENSION IF NOT EXISTS vector;" = true
    ∧ strTrim "CREATE EXTENSION IF NOT EXISTS vector;\n\n-- First pass: Create all tables without foreign keys\n\n-- Second pass: Add foreign key constraints\n"
        ≠ "CREATE EXTENSION IF NOT EXISTS vector;" := by
  refine ⟨rfl, by decide, by decide⟩

/-! ### Claim C2: what an existing table missing one column and one FK gets -/

/-- The `posts` entity of the repository's own test fixtures. -/
def postColumnsC2 : List (String × ColumnMetadata) :=
  [("id", { name := "id", primary := true, type := "text", default := some "gen_random_uuid()" }),
   ("title", { name := "title", type := "text" }),
   ("content", { name := "content", nullable := true, type := "text" }),
   ("userId", { name := "user_id", type := "text" })]

/-- The `posts` entity with a foreign key `user_id → users(id)`. -/
def postEntityC2 : Entity :=
  { tableName := "posts", columnLevels := [postColumnsC2],
    foreignKeys := [("userId", { tableName := "users", columnName := "id" })] }

/-- A snapshot of `posts` missing exactly the nullable column `content` and
the foreign key on `user_id`. -/
def postInfoC2 : TableInfo :=
  { columns :=
      [{ column_name := "id", data_type := "text", is_nullable := "NO",
         column_default := some "gen_random_uuid()" },
       { column_name := "title", data_type := "text", is_nullable := "NO" },
       { column_name := "user_id", data_type := "text", is_nullable := "NO" }],
    primaryKey := ["id"], foreignKeys := [], indexes := [] }

/-- The current schema holding only that snapshot. -/
def schemaC2 : DatabaseSchema := [("posts", postInfoC2)]

/-- The whole migration script for that scenario. -/
def sqlC2 : String :=
  match generateMigrationSQL [postEntityC2] schemaC2 with
  | .ok s => s
  | .error e => e

/-- C2 counterexample: for a table present in the snapshot missing exactly one
nullable column and one foreign key, the structure pass itself already emits
an `ADD CONSTRAINT` (so it is not FK-free), and the whole script contains two
`ADD CONSTRAINT` statements for the table, not exactly one. -/
theorem c2_counterexample :
    (match generateAlterTableSQL postEntityC2 postInfoC2 with
      | .ok s => countOccs "ADD CONSTRAINT" s
      | .error _ => 0) = 1
    ∧ countOccs "ADD CONSTRAINT" sqlC2 = 2
    ∧ countOccs "ADD COLUMN" sqlC2 = 1
    ∧ (2 : Nat) ≠ 1 := by
  refine ⟨by rfl, by rfl, by rfl, by decide⟩

/-- C2 (amended): `generateAlterTableSQL` emits, besides column additions and
alterations, one plain `ADD CONSTRAINT` per foreign key missing from the
snapshot; the foreign-key pass emits a second, deferred one. For a table in
the snapshot missing one nullable column and one foreign key the script hence
contains exactly one `ADD COLUMN` and exactly two `ADD CONSTRAINT` statements
for that table. -/
theorem c2_alter_emits_fk_amended :
    generateAlterTableSQL postEntityC2 postInfoC2 =
      Except.ok ("ALTER TABLE posts ADD COLUMN content text;\nALTER TABLE posts ADD CONSTRAINT fk_posts_user_id FOREIGN KEY (user_id) REFERENCES users(id);\n")
    ∧ generateForeignKeySQL postEntityC2 schemaC2 =
      Except.ok ("ALTER TABLE posts ADD CONSTRAINT fk_posts_user_id FOREIGN KEY (user_id) REFERENCES users(id) ON DELETE CASCADE DEFERRABLE INITIALLY DEFERRED;\n")
    ∧ countOccs "ADD COLUMN" sqlC2 = 1
    ∧ countOccs "ADD CONSTRAINT" sqlC2 = 2
    ∧ countOccs "ON DELETE CASCADE DEFERRABLE INITIALLY DEFERRED" sqlC2 = 1 := by
  refine ⟨rfl, rfl, by rfl, by rfl, by rfl⟩

/-! ### Claim C5: default-value rendering in `generateTableSQL` -/

/-- A one-column entity whose jsonb default is the parseable array literal
`ARRAY['zz']` on the specially-treated property name `promptTypes`. -/
def promptEntityC5 : Entity :=
  { tableName := "ai_settings",
    columnLevels := [[("promptTypes",
      { name := "prompt_types", nullable := true, type := "jsonb",
        default := some "ARRAY['zz']" })]] }

/-- C5 counterexample: for the jsonb column property `promptTypes` with the
parseable array-literal default `ARRAY['zz']`, `generateTableSQL` renders a
hardcoded three-element list that mentions the literal's content nowhere —
neither a `::jsonb` cast of that literal nor the empty-array/object fallback
the claim allows for unparseable literals. -/
theorem c5_counterexample :
    generateTableSQL promptEntityC5 true =
      Except.ok ("CREATE TABLE ai_settings (\n  prompt_types jsonb DEFAULT '[\"reflection\", \"questions\", \"encouragement\"]'::jsonb\n);\n")
    ∧ countOccs "zz" (renderDefault "promptTypes" "jsonb" "ARRAY['zz']") = 0
    ∧ renderDefault "promptTypes" "jsonb" "ARRAY['zz']" ≠ " DEFAULT '[\"zz\"]'::jsonb"
    ∧ renderDefault "promptTypes" "jsonb" "ARRAY['zz']" ≠ " DEFAULT '[]'::jsonb"
    ∧ renderDefault "promptTypes" "jsonb" "ARRAY['zz']" ≠ " DEFAULT '\x7b\x7d'::jsonb" := by
  refine ⟨rfl, by rfl, by decide, by decide, by decide⟩

/-- C5 (amended): every branch of default rendering, universally. A jsonb
default starting with `ARRAY[` is rewritten by property-name special cases,
regardless of the literal's content or parseability: property `promptTypes`
always gets the fixed three-element list, `preferredTags`/`excludedTags`
always get `'[]'::jsonb`, and every other property gets the comma-split
rewrite of the bracket content into a JSON string array. A jsonb default not
starting with `ARRAY[` is: re-quoted with the suffix stripped when it ends in
`::jsonb`; embedded verbatim in a `'…'::jsonb` cast — no parse check, no
fallback — when it starts with a brace or bracket; JSON-stringified
otherwise. For a non-jsonb column a function-call default is rendered bare
and any other default as an escaped string literal. -/
theorem c5_renderDefault_amended :
    (∀ k t d, t ≠ "jsonb" →
      renderDefault k t d =
        (if isSqlFunctionStr d then " DEFAULT " ++ d
         else " DEFAULT " ++ escapeSqlString d))
    ∧ (∀ d, strStartsWith d "ARRAY[" = true →
        renderDefault "promptTypes" "jsonb" d =
          " DEFAULT '[\"reflection\", \"questions\", \"encouragement\"]'::jsonb")
    ∧ (∀ k d, (k = "preferredTags" ∨ k = "excludedTags") →
        strStartsWith d "ARRAY[" = true →
        renderDefault k "jsonb" d = " DEFAULT '[]'::jsonb")
    ∧ (∀ k d, k ≠ "promptTypes" → k ≠ "preferredTags" → k ≠ "excludedTags" →
        strStartsWith d "ARRAY[" = true →
        renderDefault k "jsonb" d =
          " DEFAULT '[\"" ++ String.intercalate "\", \""
              ((strSplitChar ',' (jsSubstring d 6 (d.data.length - 1))).map (fun item =>
                stripOuterChar '"' (jsonStringifyString (strTrim (stripOuterChar '\'' item)))))
            ++ "\"]'::jsonb")
    ∧ (∀ k d, strStartsWith d "ARRAY[" = false → strEndsWith d "::jsonb" = true →
        renderDefault k "jsonb" d =
          " DEFAULT '" ++ String.mk (d.data.take (d.data.length - 7)) ++ "'::jsonb")
    ∧ (∀ k d, strStartsWith d "ARRAY[" = false → strEndsWith d "::jsonb" = false →
        (strStartsWith d "\x7b" = true ∨ strStartsWith d "[" = true) →
        renderDefault k "jsonb" d = " DEFAULT '" ++ d ++ "'::jsonb")
    ∧ (∀ k d, strStartsWith d "ARRAY[" = false → strEndsWith d "::jsonb" = false →
        strStartsWith d "\x7b" = false → strStartsWith d "[" = false →
        renderDefault k "jsonb" d = " DEFAULT '" ++ jsonStringifyString d ++ "'::jsonb") := by
  refine ⟨?_, ?_, ?_, ?_, ?_, ?_, ?_⟩
  · intro k t d ht
    simp [renderDefault, ht]
  · intro d h
    simp [renderDefault, h]
  · intro k d hk h
    rcases hk with hk | hk <;> subst hk <;> simp [renderDefault, h]
  · intro k d hk1 hk2 hk3 h
    simp [renderDefault, h, hk1, hk2, hk3]
  · intro k d h1 h2
    simp [renderDefault, h1, h2]
  · intro k d h1 h2 h3
    rcases h3 with h3 | h3
    · simp [renderDefault, h1, h2, h3]
    · simp [renderDefault, h1, h2, h3]
  · intro k d h1 h2 h3 h4
    simp [renderDefault, h1, h2, h3, h4]

/-- C5 witness: the amended theorem applied, branch by branch, at concrete
defaults: a bare function call and an escaped literal on non-jsonb columns;
the `promptTypes` rewrite of the degenerate unparseable literal `ARRAY[` and
of a parseable one; the `excludedTags` and `preferredTags` emptying of a
parseable literal; the generic comma-split rewrite; a `::jsonb` re-quote; a
verbatim object literal; and a JSON-stringified plain string. -/
theorem c5_renderDefault_amended_witness :
    renderDefault "k" "timestamp with time zone" "now()" = " DEFAULT now()"
    ∧ renderDefault "k" "text" "O'Reilly" = " DEFAULT 'O''Reilly'"
    ∧ renderDefault "promptTypes" "jsonb" "ARRAY[" =
        " DEFAULT '[\"reflection\", \"questions\", \"encouragement\"]'::jsonb"
    ∧ renderDefault "promptTypes" "jsonb" "ARRAY['zz']" =
        " DEFAULT '[\"reflection\", \"questions\", \"encouragement\"]'::jsonb"
    ∧ renderDefault "excludedTags" "jsonb" "ARRAY['zz']" = " DEFAULT '[]'::jsonb"
    ∧ renderDefault "preferredTags" "jsonb" "ARRAY['zz']" = " DEFAULT '[]'::jsonb"
    ∧ renderDefault "other" "jsonb" "ARRAY['zz','w']" = " DEFAULT '[\"zz\", \"w\"]'::jsonb"
    ∧ renderDefault "k" "jsonb" "\x7b\"a\":1\x7d::jsonb" = " DEFAULT '\x7b\"a\":1\x7d'::jsonb"
    ∧ renderDefault "k" "jsonb" "\x7b\"a\": 1\x7d" = " DEFAULT '\x7b\"a\": 1\x7d'::jsonb"
    ∧ renderDefault "k" "jsonb" "plain" = " DEFAULT '\"plain\"'::jsonb" := by
  refine ⟨?_, ?_, ?_, ?_, ?_, ?_, ?_, ?_, ?_, ?_⟩
  · rw [c5_renderDefault_amended.1 "k" "timestamp with time zone" "now()" (by decide)]
    decide
  · rw [c5_renderDefault_amended.1 "k" "text" "O'Reilly" (by decide)]
    decide
  · rw [c5_renderDefault_amended.2.1 "ARRAY[" (by decide)]
  · rw [c5_renderDefault_amended.2.1 "ARRAY['zz']" (by decide)]
  · rw [c5_renderDefault_amended.2.2.1 "excludedTags" "ARRAY['zz']" (Or.inr rfl) (by decide)]
  · rw [c5_renderDefault_amended.2.2.1 "preferredTags" "ARRAY['zz']" (Or.inl rfl) (by decide)]
  · rw [c5_renderDefault_amended.2.2.2.1 "other" "ARRAY['zz','w']" (by decide) (by decide)
      (by decide) (by decide)]
    decide
  · rw [c5_renderDefault_amended.2.2.2.2.1 "k" "\x7b\"a\":1\x7d::jsonb" (by decide) (by decide)]
    decide
  · rw [c5_renderDefault_amended.2.2.2.2.2.1 "k" "\x7b\"a\": 1\x7d" (by decide) (by decide)
      (Or.inl (by decide))]
    rfl
  · rw [c5_renderDefault_amended.2.2.2.2.2.2 "k" "plain" (by decide) (by decide) (by decide)
      (by decide)]
    decide

/-! ### Claim C3: the foreign-key pass emits exactly one deferred statement
per missing foreign key -/

/-- The loop of `generateForeignKeySQL` concatenates exactly one deferred
`ADD CONSTRAINT` statement per foreign key whose triple is absent from the
snapshot, and nothing for a present one. -/
theorem fkDeferredSQL_eq (tableName : String) (cols : List (String × ColumnMetadata))
    (schema : DatabaseSchema) (l : List (String × ForeignKeyMetadata))
    (h : ∀ pfk ∈ l, (lookupKey cols pfk.1).isSome = true) :
    fkDeferredSQL tableName cols schema l = .ok (concatList (l.filterMap (fun pfk =>
      (lookupKey cols pfk.1).bind (fun columnMeta =>
        if (match lookupKey schema tableName with
            | some tableInfo => fkTripleExists tableInfo.foreignKeys columnMeta.name pfk.2
            | none => false) then none
        else some ("ALTER TABLE " ++ quoteIdentifier tableName ++ " ADD CONSTRAINT "
          ++ quoteIdentifier ("fk_" ++ tableName ++ "_" ++ columnMeta.name)
          ++ " FOREIGN KEY (" ++ quoteIdentifier columnMeta.name
          ++ ") REFERENCES " ++ quoteIdentifier pfk.2.tableName
          ++ "(" ++ quoteIdentifier pfk.2.columnName
          ++ ") ON DELETE CASCADE DEFERRABLE INITIALLY DEFERRED;\n"))))) := by
  induction l with
  | nil => rfl
  | cons pfk rest ih =>
    obtain ⟨pk, fk⟩ := pfk
    have hhead := h (pk, fk) (List.mem_cons_self _ _)
    obtain ⟨cm, hcm⟩ := Option.isSome_iff_exists.mp hhead
    have hrest : ∀ x ∈ rest, (lookupKey cols x.1).isSome = true :=
      fun x hx => h x (List.mem_cons_of_mem _ hx)
    unfold fkDeferredSQL
    rw [hcm, ih hrest, List.filterMap_cons]
    simp only [hcm, Option.some_bind]
    by_cases hex : (match lookupKey schema tableName with
        | some tableInfo => fkTripleExists tableInfo.foreignKeys cm.name fk
        | none => false) = true
    · rw [if_pos hex, if_pos hex]
      show Except.ok ("" ++ _) = _
      rfl
    · rw [if_neg hex, if_neg hex]
      rfl

/-- C3: in the foreign-key pass, for an entity whose foreign-key properties
all carry column descriptors, `generateForeignKeySQL` returns exactly the
concatenation, over the declared foreign keys in order, of one
`ADD CONSTRAINT` statement per key whose (column, referenced table,
referenced column) triple is absent from the introspected snapshot — each
statement ending in `ON DELETE CASCADE DEFERRABLE INITIALLY DEFERRED;` — and
of nothing for a key whose triple is present. -/
theorem c3_foreign_key_pass (e : Entity) (schema : DatabaseSchema)
    (h : ∀ pfk ∈ e.foreignKeys,
      (lookupKey (getAllColumnsFromHierarchy e.columnLevels) pfk.1).isSome = true) :
    generateForeignKeySQL e schema = .ok (concatList (e.foreignKeys.filterMap (fun pfk =>
      (lookupKey (getAllColumnsFromHierarchy e.columnLevels) pfk.1).bind (fun columnMeta =>
        if (match lookupKey schema e.tableName with
            | some tableInfo => fkTripleExists tableInfo.foreignKeys columnMeta.name pfk.2
            | none => false) then none
        else some (("ALTER TABLE " ++ quoteIdentifier e.tableName ++ " ADD CONSTRAINT "
          ++ quoteIdentifier ("fk_" ++ e.tableName ++ "_" ++ columnMeta.name)
          ++ " FOREIGN KEY (" ++ quoteIdentifier columnMeta.name
          ++ ") REFERENCES " ++ quoteIdentifier pfk.2.tableName
          ++ "(" ++ quoteIdentifier pfk.2.columnName)
          ++ ") ON DELETE CASCADE DEFERRABLE INITIALLY DEFERRED;\n"))))) := by
  exact fkDeferredSQL_eq e.tableName (getAllColumnsFromHierarchy e.columnLevels)
    schema e.foreignKeys h

/-- The `posts` snapshot with the foreign-key triple already present. -/
def postInfoWithFk : TableInfo :=
  { columns := postInfoC2.columns,
    primaryKey := ["id"],
    foreignKeys := [{ column_name := "user_id", foreign_table_name := "users",
                      foreign_column_name := "id" }],
    indexes := [] }

/-- C3 witness: the theorem applied to the test-fixture `posts` entity against
a schema where the triple is absent (one deferred statement emitted) and one
where it is present (nothing emitted). -/
theorem c3_foreign_key_pass_witness :
    generateForeignKeySQL postEntityC2 schemaC2 =
      Except.ok ("ALTER TABLE posts ADD CONSTRAINT fk_posts_user_id FOREIGN KEY (user_id) REFERENCES users(id) ON DELETE CASCADE DEFERRABLE INITIALLY DEFERRED;\n")
    ∧ generateForeignKeySQL postEntityC2 [("posts", postInfoWithFk)] = Except.ok "" := by
  constructor
  · rw [c3_foreign_key_pass postEntityC2 schemaC2 (by decide)]
    rfl
  · rw [c3_foreign_key_pass postEntityC2 [("posts", postInfoWithFk)] (by decide)]
    rfl

/-! ### Claim C6: statement granularity of `generateAlterTableSQL` -/

/-- The column loop concatenates one piece per resolved column. -/
theorem alterColumnsSQL_eq (tableName : String) (info : TableInfo)
    (l : List (String × ColumnMetadata)) :
    alterColumnsSQL tableName info l =
      concatList (l.map (fun km => alterColumnPiece tableName info km.2)) := by
  induction l with
  | nil => rfl
  | cons km rest ih =>
    obtain ⟨k, m⟩ := km
    show alterColumnPiece tableName info m ++ alterColumnsSQL tableName info rest = _
    rw [ih]
    rfl

/-- The foreign-key loop concatenates exactly one plain `ADD CONSTRAINT`
statement per foreign key absent from the snapshot. -/
theorem alterFkSQL_eq (tableName : String) (cols : List (String × ColumnMetadata))
    (info : TableInfo) (l : List (String × ForeignKeyMetadata))
    (h : ∀ pfk ∈ l, (lookupKey cols pfk.1).isSome = true) :
    alterFkSQL tableName cols info l = .ok (concatList (l.filterMap (fun pfk =>
      (lookupKey cols pfk.1).bind (fun columnMeta =>
        if fkTripleExists info.foreignKeys columnMeta.name pfk.2 then none
        else some ("ALTER TABLE " ++ quoteIdentifier tableName ++ " ADD CONSTRAINT "
          ++ quoteIdentifier ("fk_" ++ tableName ++ "_" ++ columnMeta.name)
          ++ " FOREIGN KEY (" ++ quoteIdentifier columnMeta.name
          ++ ") REFERENCES " ++ quoteIdentifier pfk.2.tableName
          ++ "(" ++ quoteIdentifier pfk.2.columnName ++ ");\n"))))) := by
  induction l with
  | nil => rfl
  | cons pfk rest ih =>
    obtain ⟨pk, fk⟩ := pfk
    obtain ⟨cm, hcm⟩ := Option.isSome_iff_exists.mp (h (pk, fk) (List.mem_cons_self _ _))
    have hrest : ∀ x ∈ rest, (lookupKey cols x.1).isSome = true :=
      fun x hx => h x (List.mem_cons_of_mem _ hx)
    unfold alterFkSQL
    rw [hcm, ih hrest, List.filterMap_cons]
    simp only [hcm, Option.some_bind]
    by_cases hex : fkTripleExists info.foreignKeys cm.name fk = true
    · rw [if_pos hex, if_pos hex]
      show Except.ok ("" ++ _) = _
      rfl
    · rw [if_neg hex, if_neg hex]
      rfl

/-- The vector loop concatenates exactly one `ADD COLUMN ... vector(n)`
statement per vector column absent from the snapshot. -/
theorem alterVectorSQL_eq (tableName : String) (cols : List (String × ColumnMetadata))
    (info : TableInfo) (l : List (String × Nat))
    (h : ∀ pv ∈ l, (lookupKey cols pv.1).isSome = true) :
    alterVectorSQL tableName cols info l = .ok (concatList (l.filterMap (fun pv =>
      (lookupKey cols pv.1).bind (fun columnMeta =>
        if (findColumnInfo info columnMeta.name).isSome then none
        else some ("ALTER TABLE " ++ quoteIdentifier tableName ++ " ADD COLUMN "
          ++ quoteIdentifier columnMeta.name ++ " vector(" ++ toString pv.2 ++ ");\n"))))) := by
  induction l with
  | nil => rfl
  | cons pv rest ih =>
    obtain ⟨pk, dims⟩ := pv
    obtain ⟨cm, hcm⟩ := Option.isSome_iff_exists.mp (h (pk, dims) (List.mem_cons_self _ _))
    have hrest : ∀ x ∈ rest, (lookupKey cols x.1).isSome = true :=
      fun x hx => h x (List.mem_cons_of_mem _ hx)
    unfold alterVectorSQL
    rw [hcm, ih hrest, List.filterMap_cons]
    simp only [hcm, Option.some_bind]
    by_cases hex : (findColumnInfo info cm.name).isSome = true
    · rw [if_pos hex, if_pos hex]
      show Except.ok ("" ++ _) = _
      rfl
    · rw [if_neg hex, if_neg hex]
      rfl

/-- C6: `generateAlterTableSQL` output is the concatenation of per-change
pieces — one `ALTER TABLE ... ;` statement per missing column, per missing
foreign key and per missing vector column — and the only batching is that an
existing column's modification clauses (nullability toggle, case-insensitive
type change) are comma-joined into one single `ALTER TABLE <table>
<clause1>, <clause2>;` statement. -/
theorem c6_alter_statement_granularity (e : Entity) (info : TableInfo)
    (hfk : ∀ pfk ∈ e.foreignKeys,
      (lookupKey (getAllColumnsFromHierarchy e.columnLevels) pfk.1).isSome = true)
    (hvec : ∀ pv ∈ e.vectorColumns,
      (lookupKey (getAllColumnsFromHierarchy e.columnLevels) pv.1).isSome = true) :
    generateAlterTableSQL e info = .ok (
      concatList ((getAllColumnsFromHierarchy e.columnLevels).map
        (fun km => alterColumnPiece e.tableName info km.2))
      ++ concatList (e.foreignKeys.filterMap (fun pfk =>
        (lookupKey (getAllColumnsFromHierarchy e.columnLevels) pfk.1).bind (fun columnMeta =>
          if fkTripleExists info.foreignKeys columnMeta.name pfk.2 then none
          else some ("ALTER TABLE " ++ quoteIdentifier e.tableName ++ " ADD CONSTRAINT "
            ++ quoteIdentifier ("fk_" ++ e.tableName ++ "_" ++ columnMeta.name)
            ++ " FOREIGN KEY (" ++ quoteIdentifier columnMeta.name
            ++ ") REFERENCES " ++ quoteIdentifier pfk.2.tableName
            ++ "(" ++ quoteIdentifier pfk.2.columnName ++ ");\n"))))
      ++ concatList (e.vectorColumns.filterMap (fun pv =>
        (lookupKey (getAllColumnsFromHierarchy e.columnLevels) pv.1).bind (fun columnMeta =>
          if (findColumnInfo info columnMeta.name).isSome then none
          else some ("ALTER TABLE " ++ quoteIdentifier e.tableName ++ " ADD COLUMN "
            ++ quoteIdentifier columnMeta.name ++ " vector(" ++ toString pv.2 ++ ");\n")))))
    ∧ (∀ m : ColumnMetadata, m.isVector = false → findColumnInfo info m.name = none →
        alterColumnPiece e.tableName info m =
          "ALTER TABLE " ++ quoteIdentifier e.tableName ++ " ADD COLUMN "
            ++ quoteIdentifier m.name ++ " " ++ m.type
            ++ (if !m.nullable then " NOT NULL" else "")
            ++ (if m.unique then " UNIQUE" else "")
            ++ (match m.default with
                | some d =>
                  if isSqlFunctionStr d then " DEFAULT " ++ d
                  else " DEFAULT " ++ escapeSqlString d
                | none => "")
            ++ ";\n")
    ∧ (∀ (m : ColumnMetadata) (ex : ColumnInfo), m.isVector = false →
        findColumnInfo info m.name = some ex → alterModClauses m ex ≠ [] →
        alterColumnPiece e.tableName info m =
          "ALTER TABLE " ++ quoteIdentifier e.tableName ++ " "
            ++ String.intercalate ", " (alterModClauses m ex) ++ ";\n") := by
  refine ⟨?_, ?_, ?_⟩
  · simp only [generateAlterTableSQL]
    rw [alterFkSQL_eq e.tableName (getAllColumnsFromHierarchy e.columnLevels) info
        e.foreignKeys hfk,
      alterVectorSQL_eq e.tableName (getAllColumnsFromHierarchy e.columnLevels) info
        e.vectorColumns hvec,
      alterColumnsSQL_eq]
  · intro m h1 h2
    simp [alterColumnPiece, h1, h2]
  · intro m ex h1 h2 h3
    have hne : (alterModClauses m ex).isEmpty = false := by
      cases hE : alterModClauses m ex with
      | nil => exact absurd hE h3
      | cons a t => rfl
    simp [alterColumnPiece, h1, h2, hne]

/-- C6 witness: the theorem applied to the `posts` fixture (one missing column
piece, one missing-FK piece), evaluated to the two concrete statements. -/
theorem c6_alter_statement_granularity_witness :
    generateAlterTableSQL postEntityC2 postInfoC2 =
      Except.ok ("ALTER TABLE posts ADD COLUMN content text;\nALTER TABLE posts ADD CONSTRAINT fk_posts_user_id FOREIGN KEY (user_id) REFERENCES users(id);\n") := by
  have h := c6_alter_statement_granularity postEntityC2 postInfoC2 (by decide) (by decide)
  rw [h.1]
  rfl

/-! ### Claim C7: dangling foreign-key / vector descriptors -/

/-- A dangling foreign-key property makes the alter FK loop throw. -/
theorem alterFkSQL_error (tableName : String) (cols : List (String × ColumnMetadata))
    (info : TableInfo) :
    ∀ l : List (String × ForeignKeyMetadata),
      (∃ pfk ∈ l, lookupKey cols pfk.1 = none) →
      ∃ msg, alterFkSQL tableName cols info l = .error msg := by
  intro l
  induction l with
  | nil =>
    rintro ⟨pfk, hmem, _⟩
    exact absurd hmem (List.not_mem_nil _)
  | cons head rest ih =>
    rintro ⟨pfk, hmem, hnone⟩
    obtain ⟨pk, fk⟩ := head
    rcases hlk : lookupKey cols pk with _ | cm
    · exact ⟨_, by unfold alterFkSQL; rw [hlk]⟩
    · rcases List.mem_cons.mp hmem with heq | hmem'
      · rw [heq] at hnone
        simp [hlk] at hnone
      · obtain ⟨msg, hmsg⟩ := ih ⟨pfk, hmem', hnone⟩
        exact ⟨msg, by unfold alterFkSQL; rw [hlk, hmsg]⟩

/-- A dangling vector property makes the alter vector loop throw. -/
theorem alterVectorSQL_error (tableName : String) (cols : List (String × ColumnMetadata))
    (info : TableInfo) :
    ∀ l : List (String × Nat),
      (∃ pv ∈ l, lookupKey cols pv.1 = none) →
      ∃ msg, alterVectorSQL tableName cols info l = .error msg := by
  intro l
  induction l with
  | nil =>
    rintro ⟨pv, hmem, _⟩
    exact absurd hmem (List.not_mem_nil _)
  | cons head rest ih =>
    rintro ⟨pv, hmem, hnone⟩
    obtain ⟨pk, dims⟩ := head
    rcases hlk : lookupKey cols pk with _ | cm
    · exact ⟨_, by unfold alterVectorSQL; rw [hlk]⟩
    · rcases List.mem_cons.mp hmem with heq | hmem'
      · rw [heq] at hnone
        simp [hlk] at hnone
      · obtain ⟨msg, hmsg⟩ := ih ⟨pv, hmem', hnone⟩
        exact ⟨msg, by unfold alterVectorSQL; rw [hlk, hmsg]⟩

/-- A dangling foreign-key property makes the create-table FK loop throw. -/
theorem createFkDefs_error (tableName : String) (cols : List (String × ColumnMetadata)) :
    ∀ l : List (String × ForeignKeyMetadata),
      (∃ pfk ∈ l, lookupKey cols pfk.1 = none) →
      ∃ msg, createFkDefs tableName cols l = .error msg := by
  intro l
  induction l with
  | nil =>
    rintro ⟨pfk, hmem, _⟩
    exact absurd hmem (List.not_mem_nil _)
  | cons head rest ih =>
    rintro ⟨pfk, hmem, hnone⟩
    obtain ⟨pk, fk⟩ := head
    rcases hlk : lookupKey cols pk with _ | cm
    · exact ⟨_, by unfold createFkDefs; rw [hlk]⟩
    · rcases List.mem_cons.mp hmem with heq | hmem'
      · rw [heq] at hnone
        simp [hlk] at hnone
      · obtain ⟨msg, hmsg⟩ := ih ⟨pfk, hmem', hnone⟩
        exact ⟨msg, by unfold createFkDefs; rw [hlk, hmsg]⟩

/-- A dangling vector property makes the create-table vector loop throw. -/
theorem createVectorSQL_error (tableName : String) (cols : List (String × ColumnMetadata)) :
    ∀ l : List (String × Nat),
      (∃ pv ∈ l, lookupKey cols pv.1 = none) →
      ∃ msg, createVectorSQL tableName cols l = .error msg := by
  intro l
  induction l with
  | nil =>
    rintro ⟨pv, hmem, _⟩
    exact absurd hmem (List.not_mem_nil _)
  | cons head rest ih =>
    rintro ⟨pv, hmem, hnone⟩
    obtain ⟨pk, dims⟩ := head
    rcases hlk : lookupKey cols pk with _ | cm
    · exact ⟨_, by unfold createVectorSQL; rw [hlk]⟩
    · rcases List.mem_cons.mp hmem with heq | hmem'
      · rw [heq] at hnone
        simp [hlk] at hnone
      · obtain ⟨msg, hmsg⟩ := ih ⟨pv, hmem', hnone⟩
        exact ⟨msg, by unfold createVectorSQL; rw [hlk, hmsg]⟩

/-- With every vector property backed by a column, the create-table vector
loop succeeds. -/
theorem createVectorSQL_ok (tableName : String) (cols : List (String × ColumnMetadata)) :
    ∀ l : List (String × Nat),
      (∀ pv ∈ l, (lookupKey cols pv.1).isSome = true) →
      ∃ s, createVectorSQL tableName cols l = .ok s := by
  intro l
  induction l with
  | nil => exact fun _ => ⟨"", rfl⟩
  | cons head rest ih =>
    intro h
    obtain ⟨pk, dims⟩ := head
    obtain ⟨cm, hcm⟩ := Option.isSome_iff_exists.mp (h (pk, dims) (List.mem_cons_self _ _))
    obtain ⟨s, hs⟩ := ih (fun x hx => h x (List.mem_cons_of_mem _ hx))
    exact ⟨_, by unfold createVectorSQL; rw [hcm, hs]⟩

/-- A minimal entity whose foreign key sits on property `ghost`, which has no
column descriptor. -/
def ghostEntityC7 : Entity :=
  { tableName := "t",
    columnLevels := [[("id", { name := "id", type := "text" })]],
    foreignKeys := [("ghost", { tableName := "users", columnName := "id" })] }

/-- C7 counterexample: `ghostEntityC7` has a foreign-key descriptor on a
property with no column descriptor, yet `generateTableSQL` with
`includeForeignKeys = false` — the very form the migration orchestrator's
structure pass uses — succeeds instead of throwing, because the foreign-key
check is skipped entirely on that path. -/
theorem c7_counterexample :
    lookupKey (getAllColumnsFromHierarchy ghostEntityC7.columnLevels) "ghost" = none
    ∧ ("ghost", ({ tableName := "users", columnName := "id" } : ForeignKeyMetadata))
        ∈ ghostEntityC7.foreignKeys
    ∧ generateTableSQL ghostEntityC7 false = Except.ok "CREATE TABLE t (\n  id text NOT NULL\n);\n" := by
  refine ⟨by decide, by decide, rfl⟩

/-- C7 (amended): a vector descriptor on a property with no column descriptor
always rejects the whole call, and so does such a foreign-key descriptor in
`generateAlterTableSQL` and in `generateTableSQL` with
`includeForeignKeys = true`; but `generateTableSQL` with
`includeForeignKeys = false` ignores dangling foreign-key descriptors and
succeeds whenever every vector property is backed by a column. -/
theorem c7_dangling_descriptor_amended (e : Entity) (info : TableInfo) :
    ((∃ pfk ∈ e.foreignKeys,
        lookupKey (getAllColumnsFromHierarchy e.columnLevels) pfk.1 = none) →
      (∃ msg, generateAlterTableSQL e info = .error msg)
      ∧ ∃ msg, generateTableSQL e true = .error msg)
    ∧ (∀ b : Bool,
      (∃ pv ∈ e.vectorColumns,
        lookupKey (getAllColumnsFromHierarchy e.columnLevels) pv.1 = none) →
      (∃ msg, generateAlterTableSQL e info = .error msg)
      ∧ ∃ msg, generateTableSQL e b = .error msg)
    ∧ ((∀ pv ∈ e.vectorColumns,
        (lookupKey (getAllColumnsFromHierarchy e.columnLevels) pv.1).isSome = true) →
      ∃ s, generateTableSQL e false = .ok s) := by
  refine ⟨?_, ?_, ?_⟩
  · intro hdangling
    constructor
    · obtain ⟨msg, hmsg⟩ := alterFkSQL_error e.tableName
        (getAllColumnsFromHierarchy e.columnLevels) info e.foreignKeys hdangling
      exact ⟨msg, by simp only [generateAlterTableSQL]; rw [hmsg]⟩
    · obtain ⟨msg, hmsg⟩ := createFkDefs_error e.tableName
        (getAllColumnsFromHierarchy e.columnLevels) e.foreignKeys hdangling
      exact ⟨msg, by simp only [generateTableSQL, if_true]; rw [hmsg]⟩
  · intro b hdangling
    constructor
    · rcases halt : alterFkSQL e.tableName (getAllColumnsFromHierarchy e.columnLevels)
          info e.foreignKeys with msg | fkSql
      · exact ⟨msg, by simp only [generateAlterTableSQL]; rw [halt]⟩
      · obtain ⟨msg, hmsg⟩ := alterVectorSQL_error e.tableName
          (getAllColumnsFromHierarchy e.columnLevels) info e.vectorColumns hdangling
        exact ⟨msg, by simp only [generateAlterTableSQL]; rw [halt, hmsg]⟩
    · rcases hfkstep : (if b then
          createFkDefs e.tableName (getAllColumnsFromHierarchy e.columnLevels) e.foreignKeys
        else .ok []) with msg | fkDefs
      · exact ⟨msg, by simp only [generateTableSQL]; rw [hfkstep]⟩
      · obtain ⟨msg, hmsg⟩ := createVectorSQL_error e.tableName
          (getAllColumnsFromHierarchy e.columnLevels) e.vectorColumns hdangling
        exact ⟨msg, by simp only [generateTableSQL]; rw [hfkstep, hmsg]⟩
  · intro hok
    obtain ⟨s, hs⟩ := createVectorSQL_ok e.tableName
      (getAllColumnsFromHierarchy e.columnLevels) e.vectorColumns hok
    exact ⟨_, by simp only [generateTableSQL]; rw [if_neg Bool.false_ne_true, hs]⟩

/-- C7 witness: the amended theorem applied to `ghostEntityC7`: the dangling
foreign key makes `generateAlterTableSQL` and `generateTableSQL true` throw,
while `generateTableSQL false` succeeds. -/
theorem c7_dangling_descriptor_amended_witness :
    (∃ msg, generateAlterTableSQL ghostEntityC7 postInfoC2 = Except.error msg)
    ∧ (∃ msg, generateTableSQL ghostEntityC7 true = Except.error msg)
    ∧ ∃ s, generateTableSQL ghostEntityC7 false = Except.ok s := by
  have h := c7_dangling_descriptor_amended ghostEntityC7 postInfoC2
  have hdangling : ∃ pfk ∈ ghostEntityC7.foreignKeys,
      lookupKey (getAllColumnsFromHierarchy ghostEntityC7.columnLevels) pfk.1 = none :=
    ⟨("ghost", { tableName := "users", columnName := "id" }), by decide, by decide⟩
  exact ⟨(h.1 hdangling).1, (h.1 hdangling).2, h.2.2 (by decide)⟩

end Meridian
